import Mathlib

/-!
Shallow embedding of the pipe-driven virtual input device
(Source/Core/InputCommon/ControllerInterface/Pipes/Pipes.cpp).

Analog values (C++ doubles) are modelled over the rationals; the inputs
exercised by the protocol (decimal literals, halves, clamping bounds) are
exactly representable, so the rational model tracks the C++ arithmetic on
them.  Maps (std::map of name to control pointer) are modelled as
association lists with unique keys fixed at construction; SetState through
a found iterator becomes an update of the existing entry.
-/

namespace Pipes

/-- Field splitter underlying the tokenizer: splits on single spaces,
with getline semantics (consecutive delimiters yield empty fields, a
trailing delimiter yields no extra field).  Modelled from the spec: the
generic string-splitting utility (SplitString) is outside the provided
sources; the spec says a line is split on whitespace into tokens. -/
def splitFields : List Char → List Char → List (List Char)
  | cur, [] => [cur]
  | cur, c :: cs =>
    if c = ' ' then
      cur :: (if cs.isEmpty then [] else splitFields [] cs)
    else
      splitFields (cur ++ [c]) cs

/-- Tokenizes one command line (SplitString(command, ' ')). -/
def splitString (s : String) : List String :=
  if s.data.isEmpty then [] else (splitFields [] s.data).map String.mk

/-- Reads a maximal run of decimal digits: accumulated value, number of
digits read, rest of the input. -/
def parseDigits : Nat → Nat → List Char → Nat × Nat × List Char
  | acc, n, [] => (acc, n, [])
  | acc, n, c :: cs =>
    if c.isDigit then parseDigits (10 * acc + (c.toNat - 48)) (n + 1) cs
    else (acc, n, c :: cs)

/-- Strips an optional leading sign, returning the sign factor. -/
def signOf : List Char → ℚ × List Char
  | '-' :: rest => (-1, rest)
  | '+' :: rest => (1, rest)
  | cs => (1, cs)

/-- Embedding of StringToDouble: classic-locale stream extraction of a
decimal number.  Modelled from the spec for the extraction itself (the
stream machinery is the standard library): VALUE fields are decimal
numbers with the dot as separator; unparsable text yields the fallback 0. -/
def stringToDouble (s : String) : ℚ :=
  let sc := signOf s.data
  let ir := parseDigits 0 0 sc.2
  match ir.2.2 with
  | '.' :: rest =>
    let fr := parseDigits 0 0 rest
    if ir.2.1 = 0 ∧ fr.2.1 = 0 then 0
    else sc.1 * ((ir.1 : ℚ) + (fr.1 : ℚ) / 10 ^ fr.2.1)
  | _ => if ir.2.1 = 0 then 0 else sc.1 * (ir.1 : ℚ)

/-- The control store of one device: button values keyed by button name
(m_buttons) and axis-half values keyed by axis-half name (m_axes). -/
structure ControlState where
  buttons : List (String × ℚ)
  axes : List (String × ℚ)
  deriving DecidableEq

/-- First value stored under a key, if any (map find + dereference). -/
def lookupValue : List (String × ℚ) → String → Option ℚ
  | [], _ => none
  | (k, v) :: rest, key => if k = key then some v else lookupValue rest key

/-- Replaces the value stored under a key when the key is present and
leaves the list unchanged otherwise: the find-then-SetState pattern on a
map whose key set is fixed at construction. -/
def updateEntry : List (String × ℚ) → String → ℚ → List (String × ℚ)
  | [], _, _ => []
  | (k, v) :: rest, key, value =>
    if k = key then (k, value) :: rest else (k, v) :: updateEntry rest key value

/-- MathUtil.Clamp(value, 0.0, 1.0).  Modelled from the spec for the
helper itself (the MathUtil header is outside the provided sources):
clamp the value into the range from 0 to 1. -/
def clamp01 (value : ℚ) : ℚ := max 0 (min 1 value)

/-- The positive-half magnitude computed by PipeDevice.SetAxis from the
clamped value. -/
def hiHalf (value : ℚ) : ℚ := max 0 (value - 1/2) * 2

/-- The negative-half magnitude computed by PipeDevice.SetAxis from the
clamped value. -/
def loHalf (value : ℚ) : ℚ := (1/2 - min (1/2) value) * 2

/-- Embedding of PipeDevice.SetAxis: clamp into the unit interval, then
store the hi half under the key (entry followed by a space and a plus)
and the lo half under the minus key, each only when that key is present
in m_axes. -/
def setAxis (st : ControlState) (entry : String) (value : ℚ) : ControlState :=
  let c := clamp01 value
  { st with
    axes := updateEntry (updateEntry st.axes (entry ++ " +") (hiHalf c))
      (entry ++ " -") (loHalf c) }

/-- Embedding of the body of PipeDevice.ParseCommand after tokenization:
token counts outside 2..4 are dropped; PRESS and RELEASE write 1 or 0
into the named button when it exists; a 3-token SET rescales the value
and applies it to the named axis; a 4-token SET applies the two values to
the X and Y sub-axes of the named axis. -/
def applyTokens (st : ControlState) (tokens : List String) : ControlState :=
  if tokens.length < 2 ∨ tokens.length > 4 then st
  else if tokens.headD "" = "PRESS" ∨ tokens.headD "" = "RELEASE" then
    { st with
      buttons := updateEntry st.buttons (tokens.getD 1 "")
        (if tokens.headD "" = "PRESS" then 1 else 0) }
  else if tokens.headD "" = "SET" then
    if tokens.length = 3 then
      setAxis st (tokens.getD 1 "") (stringToDouble (tokens.getD 2 "") / 2 + 1/2)
    else if tokens.length = 4 then
      setAxis (setAxis st (tokens.getD 1 "" ++ " X") (stringToDouble (tokens.getD 2 "")))
        (tokens.getD 1 "" ++ " Y") (stringToDouble (tokens.getD 3 ""))
    else st
  else st

/-- Embedding of PipeDevice.ParseCommand. -/
def parseCommand (st : ControlState) (command : String) : ControlState :=
  applyTokens st (splitString command)

/-- The recognized button names (s_button_tokens). -/
def buttonTokens : List String :=
  ["A", "B", "X", "Y", "Z", "START", "L", "R", "D_UP", "D_DOWN", "D_LEFT", "D_RIGHT"]

/-- The recognized single-value (shoulder) axis names (s_shoulder_tokens). -/
def shoulderTokens : List String := ["L", "R"]

/-- The recognized two-value (stick) axis base names (s_axis_tokens). -/
def axisTokens : List String := ["MAIN", "C"]

/-- Modelled from the spec: the state a fresh PipeInput carries before
any command (the PipeInput declaration lives in the header, outside the
provided sources); the protocol only ever writes 0 or 1 into buttons and
the default is the released value 0. -/
def defaultInputValue : ℚ := 0

/-- Embedding of PipeDevice.AddAxis: create both halves of one logical
axis, each holding the given starting value. -/
def addAxis (axes : List (String × ℚ)) (name : String) (value : ℚ) :
    List (String × ℚ) :=
  axes ++ [(name ++ " +", value), (name ++ " -", value)]

/-- The stick starting value 0.5, written as an exact rational in
normal form. -/
def half : ℚ := mkRat 1 2

/-- Embedding of the PipeDevice constructor body: one button per button
token at the default value, shoulder axes starting at 0, stick axes
(X and Y of each stick token) starting at 0.5. -/
def initControlState : ControlState :=
  { buttons := buttonTokens.map (fun tok => (tok, defaultInputValue))
    axes :=
      axisTokens.foldl
        (fun axes tok => addAxis (addAxis axes (tok ++ " X") half) (tok ++ " Y") half)
        (shoulderTokens.foldl (fun axes tok => addAxis axes tok 0) []) }

/-- Splits buffered bytes at each newline: the complete lines in order,
and the remaining bytes after the last newline. -/
def extractLinesAux : List Char → List Char → List (List Char) × List Char
  | cur, [] => ([], cur)
  | cur, c :: cs =>
    if c = '\n' then
      let r := extractLinesAux [] cs
      (cur :: r.1, r.2)
    else extractLinesAux (cur ++ [c]) cs

/-- String version of the newline splitter used by UpdateInput. -/
def extractLines (s : String) : List String × String :=
  let r := extractLinesAux [] s.data
  (r.1.map String.mk, String.mk r.2)

/-- Full byte-stream device state: the control store plus the persistent
line buffer m_buf. -/
structure PipeState where
  ctl : ControlState
  buf : String
  deriving DecidableEq

/-- Embedding of PipeDevice.UpdateInput, byte-stream build: append the
bytes read this poll to the buffer, parse every complete
newline-terminated line in order, and keep the trailing partial line in
the buffer. -/
def updateInput (st : PipeState) (input : String) : PipeState :=
  let r := extractLines (st.buf ++ input)
  { ctl := r.1.foldl parseCommand st.ctl, buf := r.2 }

/-- Embedding of PipeDevice.UpdateInput, message-oriented build: at most
one message is received per call; every newline-terminated command inside
it is parsed in order and bytes after the last newline are dropped. -/
def updateInputZmq (st : ControlState) : Option String → ControlState
  | none => st
  | some msg => (extractLines msg).1.foldl parseCommand st

/-- Host-facing query of a button value by name. -/
def buttonValue (st : ControlState) (name : String) : Option ℚ :=
  lookupValue st.buttons name

/-- Host-facing query of an axis-half value by generated key. -/
def axisValue (st : ControlState) (name : String) : Option ℚ :=
  lookupValue st.axes name

/-- The stick starting value is one half. -/
theorem half_eq : half = 1/2 := by norm_num [half, mkRat, Rat.normalize]

/-- Rebuilding a string from its bytes is the identity. -/
theorem mk_data_eq (s : String) : String.mk s.data = s := by
  obtain ⟨l⟩ := s
  rfl

/-- The bytes of a concatenation are the concatenated bytes. -/
theorem data_append (s t : String) : (s ++ t).data = s.data ++ t.data := by
  obtain ⟨a⟩ := s
  obtain ⟨b⟩ := t
  rfl

/-- The positive and negative half keys generated from one axis name are
distinct. -/
theorem plus_ne_minus (e : String) : e ++ " +" ≠ e ++ " -" := by
  obtain ⟨l⟩ := e
  intro h
  have h2 : l ++ [' ', '+'] = l ++ [' ', '-'] := congrArg String.data h
  have h3 := List.append_cancel_left h2
  simp at h3

/-- Updating a present key makes lookup return the new value. -/
theorem lookupValue_updateEntry_self (l : List (String × ℚ)) (key : String) (v : ℚ)
    (h : (lookupValue l key).isSome) :
    lookupValue (updateEntry l key v) key = some v := by
  induction l with
  | nil => simp [lookupValue] at h
  | cons p rest ih =>
    obtain ⟨k, w⟩ := p
    by_cases hk : k = key
    · simp [updateEntry, lookupValue, hk]
    · simp [updateEntry, lookupValue, hk] at h ⊢
      exact ih h

/-- Updating an absent key leaves the list unchanged. -/
theorem updateEntry_of_none (l : List (String × ℚ)) (key : String) (v : ℚ)
    (h : lookupValue l key = none) :
    updateEntry l key v = l := by
  induction l with
  | nil => simp [updateEntry]
  | cons p rest ih =>
    obtain ⟨k, w⟩ := p
    by_cases hk : k = key
    · simp [lookupValue, hk] at h
    · simp [updateEntry, lookupValue, hk] at h ⊢
      exact ih h

/-- Updating one key does not change the lookup of another. -/
theorem lookupValue_updateEntry_ne (l : List (String × ℚ)) (k key : String) (v : ℚ)
    (h : key ≠ k) :
    lookupValue (updateEntry l k v) key = lookupValue l key := by
  induction l with
  | nil => simp [updateEntry]
  | cons p rest ih =>
    obtain ⟨k1, w⟩ := p
    by_cases hk : k1 = k
    · subst hk
      simp [updateEntry, lookupValue, Ne.symm h]
    · simp [updateEntry, lookupValue, hk, ih]

/-- The axes stored by setAxis, written out. -/
theorem setAxis_axes_def (st : ControlState) (entry : String) (value : ℚ) :
    (setAxis st entry value).axes =
      updateEntry (updateEntry st.axes (entry ++ " +") (hiHalf (clamp01 value)))
        (entry ++ " -") (loHalf (clamp01 value)) := rfl

/-- setAxis never touches the buttons. -/
theorem setAxis_buttons (st : ControlState) (entry : String) (value : ℚ) :
    (setAxis st entry value).buttons = st.buttons := rfl

/-- When the positive half key exists, setAxis stores the hi magnitude
of the clamped value there. -/
theorem lookup_setAxis_plus (st : ControlState) (entry : String) (value : ℚ)
    (h : (lookupValue st.axes (entry ++ " +")).isSome) :
    lookupValue (setAxis st entry value).axes (entry ++ " +") =
      some (hiHalf (clamp01 value)) := by
  rw [setAxis_axes_def, lookupValue_updateEntry_ne _ _ _ _ (plus_ne_minus entry),
    lookupValue_updateEntry_self _ _ _ h]

/-- When the negative half key exists, setAxis stores the lo magnitude
of the clamped value there. -/
theorem lookup_setAxis_minus (st : ControlState) (entry : String) (value : ℚ)
    (h : (lookupValue st.axes (entry ++ " -")).isSome) :
    lookupValue (setAxis st entry value).axes (entry ++ " -") =
      some (loHalf (clamp01 value)) := by
  have h2 : (lookupValue
      (updateEntry st.axes (entry ++ " +") (hiHalf (clamp01 value)))
      (entry ++ " -")).isSome := by
    rw [lookupValue_updateEntry_ne _ _ _ _ (Ne.symm (plus_ne_minus entry))]
    exact h
  rw [setAxis_axes_def, lookupValue_updateEntry_self _ _ _ h2]

/-- setAxis on an axis name with neither half present is a no-op. -/
theorem setAxis_of_unknown (st : ControlState) (entry : String) (value : ℚ)
    (hp : lookupValue st.axes (entry ++ " +") = none)
    (hm : lookupValue st.axes (entry ++ " -") = none) :
    setAxis st entry value = st := by
  obtain ⟨bs, as⟩ := st
  show ControlState.mk bs
      (updateEntry (updateEntry as (entry ++ " +") (hiHalf (clamp01 value)))
        (entry ++ " -") (loHalf (clamp01 value))) = ControlState.mk bs as
  rw [updateEntry_of_none _ _ _ hp, updateEntry_of_none _ _ _ hm]

/-- setAxis depends on the input only through its clamped value. -/
theorem setAxis_congr (st : ControlState) (entry : String) {v w : ℚ}
    (h : clamp01 v = clamp01 w) :
    setAxis st entry v = setAxis st entry w := by
  unfold setAxis
  rw [h]

/-- Clamping a non-positive value gives 0. -/
theorem clamp01_of_nonpos {v : ℚ} (h : v ≤ 0) : clamp01 v = 0 := by
  unfold clamp01
  rw [min_eq_right (by linarith), max_eq_left h]

/-- Clamping a value at least 1 gives 1. -/
theorem clamp01_of_ge_one {v : ℚ} (h : 1 ≤ v) : clamp01 v = 1 := by
  unfold clamp01
  rw [min_eq_left h, max_eq_right (by norm_num)]

/-- At or below center, the positive half magnitude vanishes. -/
theorem hiHalf_eq_zero {v : ℚ} (h : v ≤ 1/2) : hiHalf v = 0 := by
  unfold hiHalf
  rw [max_eq_left (by linarith)]
  ring

/-- At or above center, the negative half magnitude vanishes. -/
theorem loHalf_eq_zero {v : ℚ} (h : 1/2 ≤ v) : loHalf v = 0 := by
  unfold loHalf
  rw [min_eq_left h]
  ring

/-- A run of bytes without a newline yields no line and stays buffered. -/
theorem extractLinesAux_no_newline (xs : List Char) (cur : List Char)
    (h : '\n' ∉ xs) :
    extractLinesAux cur xs = ([], cur ++ xs) := by
  induction xs generalizing cur with
  | nil => simp [extractLinesAux]
  | cons c cs ih =>
    have hc : ¬(c = '\n') := fun hc => h (hc ▸ List.mem_cons_self c cs)
    have hcs : '\n' ∉ cs := fun hm => h (List.mem_cons_of_mem c hm)
    simp [extractLinesAux, hc, ih (cur ++ [c]) hcs]

/-- Bytes up to the first newline become the first extracted line. -/
theorem extractLinesAux_newline (xs ys : List Char) (cur : List Char)
    (h : '\n' ∉ xs) :
    extractLinesAux cur (xs ++ '\n' :: ys) =
      ((cur ++ xs) :: (extractLinesAux [] ys).1, (extractLinesAux [] ys).2) := by
  induction xs generalizing cur with
  | nil => simp [extractLinesAux]
  | cons c cs ih =>
    have hc : ¬(c = '\n') := fun hc => h (hc ▸ List.mem_cons_self c cs)
    have hcs : '\n' ∉ cs := fun hm => h (List.mem_cons_of_mem c hm)
    simp [extractLinesAux, hc, ih (cur ++ [c]) hcs]

/-- C1 (counterexample): from the initial state, the line SET MAIN 1.0
does not produce value 1 on axis half MAIN X + together with value 0 on
MAIN X -. -/
theorem c1_set_main_counterexample :
    ¬(axisValue (parseCommand initControlState "SET MAIN 1.0") "MAIN X +" = some 1 ∧
      axisValue (parseCommand initControlState "SET MAIN 1.0") "MAIN X -" = some 0) := by
  decide

/-- C1 (amended): from the initial state, the line SET MAIN 1.0 leaves the
device unchanged: the 3-token SET targets the axis-half keys MAIN + and
MAIN -, which were never created, so MAIN X + and MAIN X - both keep
their initial value 0.5. -/
theorem c1_set_main_is_noop :
    parseCommand initControlState "SET MAIN 1.0" = initControlState ∧
    axisValue (parseCommand initControlState "SET MAIN 1.0") "MAIN X +" = some half ∧
    axisValue (parseCommand initControlState "SET MAIN 1.0") "MAIN X -" = some half ∧
    half = 1/2 :=
  ⟨by decide, by decide, by decide, half_eq⟩

/-- C2 (counterexample): a PRESS line with three tokens is not ignored:
after RELEASE A has put button A at 0, the line PRESS A B changes the
state and puts button A at 1. -/
theorem c2_press_three_tokens_counterexample :
    parseCommand (parseCommand initControlState "RELEASE A") "PRESS A B" ≠
      parseCommand initControlState "RELEASE A" ∧
    buttonValue (parseCommand initControlState "RELEASE A") "A" = some 0 ∧
    buttonValue (parseCommand (parseCommand initControlState "RELEASE A") "PRESS A B")
      "A" = some 1 := by
  refine ⟨by decide, by decide, by decide⟩

/-- C2 (amended): a line whose first token is PRESS or RELEASE mutates the
button named by its second token for every token count in 2..4 (extra
tokens are ignored but do not suppress the action); only lines whose
token count falls outside 2..4 are ignored. -/
theorem c2_pressRelease_token_counts (st : ControlState) (t0 b : String)
    (rest : List String) (hv : t0 = "PRESS" ∨ t0 = "RELEASE")
    (hlen : rest.length ≤ 2) :
    applyTokens st (t0 :: b :: rest) =
      { st with buttons := updateEntry st.buttons b (if t0 = "PRESS" then 1 else 0) } ∧
    ∀ tokens : List String, tokens.length < 2 ∨ tokens.length > 4 →
      applyTokens st tokens = st := by
  constructor
  · have hc : ¬((t0 :: b :: rest).length < 2 ∨ (t0 :: b :: rest).length > 4) := by
      simp only [List.length_cons, not_or, not_lt]
      omega
    rcases hv with h | h <;> subst h <;> unfold applyTokens <;>
      rw [if_neg hc] <;> simp
  · intro tokens hlen2
    unfold applyTokens
    rw [if_pos hlen2]

/-- C2 witness: PRESS A B (three tokens) sets button A, and a 1-token
line is dropped. -/
theorem c2_pressRelease_token_counts_witness :
    applyTokens initControlState ["PRESS", "A", "B"] =
      { initControlState with
        buttons := updateEntry initControlState.buttons "A"
          (if "PRESS" = "PRESS" then 1 else 0) } ∧
    applyTokens initControlState ["X"] = initControlState :=
  ⟨(c2_pressRelease_token_counts initControlState "PRESS" "A" ["B"]
      (Or.inl rfl) (by decide)).1,
   (c2_pressRelease_token_counts initControlState "PRESS" "A" ["B"]
      (Or.inl rfl) (by decide)).2 ["X"] (by decide)⟩

/-- C3: for every axis key and input, setAxis stores
max(0, c - 1/2) * 2 into the positive half and (1/2 - min(1/2, c)) * 2
into the negative half when those keys exist, where c is the input
clamped into the unit interval; inputs below 0 or above 1 store the same
halves as the boundary values 0 and 1. -/
theorem c3_setAxis_clamped_halves (st : ControlState) (entry : String) (value : ℚ) :
    ((lookupValue st.axes (entry ++ " +")).isSome →
      lookupValue (setAxis st entry value).axes (entry ++ " +") =
        some (max 0 (clamp01 value - 1/2) * 2)) ∧
    ((lookupValue st.axes (entry ++ " -")).isSome →
      lookupValue (setAxis st entry value).axes (entry ++ " -") =
        some ((1/2 - min (1/2) (clamp01 value)) * 2)) ∧
    (value < 0 → setAxis st entry value = setAxis st entry 0) ∧
    (1 < value → setAxis st entry value = setAxis st entry 1) := by
  refine ⟨fun h => lookup_setAxis_plus st entry value h,
    fun h => lookup_setAxis_minus st entry value h, fun h => ?_, fun h => ?_⟩
  · exact setAxis_congr st entry
      (by rw [clamp01_of_nonpos h.le, clamp01_of_nonpos (le_refl 0)])
  · exact setAxis_congr st entry
      (by rw [clamp01_of_ge_one h.le, clamp01_of_ge_one (le_refl 1)])

/-- C3 witness: on the shoulder axis L, input 2 stores the clamped halves
and behaves like input 1; input -1 behaves like input 0. -/
theorem c3_setAxis_clamped_halves_witness :
    lookupValue (setAxis initControlState "L" 2).axes ("L" ++ " +") =
      some (max 0 (clamp01 2 - 1/2) * 2) ∧
    lookupValue (setAxis initControlState "L" 2).axes ("L" ++ " -") =
      some ((1/2 - min (1/2) (clamp01 2)) * 2) ∧
    setAxis initControlState "L" 2 = setAxis initControlState "L" 1 ∧
    setAxis initControlState "L" (-1) = setAxis initControlState "L" 0 :=
  ⟨(c3_setAxis_clamped_halves initControlState "L" 2).1 (by decide),
   (c3_setAxis_clamped_halves initControlState "L" 2).2.1 (by decide),
   (c3_setAxis_clamped_halves initControlState "L" 2).2.2.2 (by norm_num),
   (c3_setAxis_clamped_halves initControlState "L" (-1)).2.2.1 (by norm_num)⟩

/-- C4: when both halves of an axis exist, a single setAxis never leaves
both halves non-zero: one of the two stored values is 0. -/
theorem c4_setAxis_halves_exclusive (st : ControlState) (entry : String) (value : ℚ)
    (hp : (lookupValue st.axes (entry ++ " +")).isSome)
    (hm : (lookupValue st.axes (entry ++ " -")).isSome)
    (a b : ℚ)
    (ha : lookupValue (setAxis st entry value).axes (entry ++ " +") = some a)
    (hb : lookupValue (setAxis st entry value).axes (entry ++ " -") = some b) :
    a = 0 ∨ b = 0 := by
  rw [lookup_setAxis_plus st entry value hp] at ha
  rw [lookup_setAxis_minus st entry value hm] at hb
  obtain rfl : hiHalf (clamp01 value) = a := Option.some.inj ha
  obtain rfl : loHalf (clamp01 value) = b := Option.some.inj hb
  rcases le_total (clamp01 value) (1/2) with h | h
  · exact Or.inl (hiHalf_eq_zero h)
  · exact Or.inr (loHalf_eq_zero h)

/-- C4 witness: setting the shoulder axis L to 3/4 leaves one of its two
stored halves at zero. -/
theorem c4_setAxis_halves_exclusive_witness :
    hiHalf (clamp01 (3/4)) = 0 ∨ loHalf (clamp01 (3/4)) = 0 :=
  c4_setAxis_halves_exclusive initControlState "L" (3/4) (by decide) (by decide)
    (hiHalf (clamp01 (3/4))) (loHalf (clamp01 (3/4))) rfl rfl

/-- C5: the half functions of setAxis satisfy hi(0)=0, lo(0)=1,
hi(1/2)=0, lo(1/2)=0, hi(1)=1, lo(1)=0, and over the unit interval hi is
monotonically non-decreasing and lo monotonically non-increasing. -/
theorem c5_halves_endpoints_monotone :
    hiHalf 0 = 0 ∧ loHalf 0 = 1 ∧ hiHalf (1/2) = 0 ∧ loHalf (1/2) = 0 ∧
    hiHalf 1 = 1 ∧ loHalf 1 = 0 ∧
    (∀ a b : ℚ, 0 ≤ a → a ≤ b → b ≤ 1 → hiHalf a ≤ hiHalf b) ∧
    (∀ a b : ℚ, 0 ≤ a → a ≤ b → b ≤ 1 → loHalf b ≤ loHalf a) := by
  refine ⟨hiHalf_eq_zero (by norm_num), ?_, hiHalf_eq_zero (by norm_num),
    loHalf_eq_zero (by norm_num), ?_, loHalf_eq_zero (by norm_num), ?_, ?_⟩
  · unfold loHalf
    rw [min_eq_right (by norm_num)]
    norm_num
  · unfold hiHalf
    rw [max_eq_right (by norm_num)]
    norm_num
  · intro a b ha hab hb
    unfold hiHalf
    have h2 : max 0 (a - 1/2) ≤ max 0 (b - 1/2) :=
      max_le_max (le_refl 0) (by linarith)
    nlinarith [h2]
  · intro a b ha hab hb
    unfold loHalf
    have h2 : min (1/2 : ℚ) a ≤ min (1/2) b := min_le_min (le_refl (1/2)) hab
    linarith

/-- C5 witness: the monotonicity parts applied at 0 and 1. -/
theorem c5_halves_endpoints_monotone_witness :
    hiHalf 0 ≤ hiHalf 1 ∧ loHalf 1 ≤ loHalf 0 :=
  ⟨c5_halves_endpoints_monotone.2.2.2.2.2.2.1 0 1 (by norm_num) (by norm_num)
    (by norm_num),
   c5_halves_endpoints_monotone.2.2.2.2.2.2.2 0 1 (by norm_num) (by norm_num)
    (by norm_num)⟩

/-- The bytes of the newline string. -/
theorem newline_data : ("\n" : String).data = ['\n'] := rfl

/-- Prepending the empty string is the identity. -/
theorem empty_append (s : String) : "" ++ s = s := by
  obtain ⟨l⟩ := s
  rfl

/-- C6: within one update call, complete lines are processed strictly in
arrival order (two buffered lines are parsed first-then-second), so the
later of two commands on the same control wins: PRESS X then RELEASE X
leaves button X at 0, RELEASE X then PRESS X leaves it at 1. -/
theorem c6_update_processes_in_order (ctl : ControlState) (l1 l2 : String)
    (h1 : '\n' ∉ l1.data) (h2 : '\n' ∉ l2.data) :
    (updateInput ⟨ctl, ""⟩ (l1 ++ "\n" ++ l2 ++ "\n")).ctl =
      parseCommand (parseCommand ctl l1) l2 ∧
    buttonValue (updateInput ⟨initControlState, ""⟩ "PRESS X\nRELEASE X\n").ctl "X" =
      some 0 ∧
    buttonValue (updateInput ⟨initControlState, ""⟩ "RELEASE X\nPRESS X\n").ctl "X" =
      some 1 := by
  refine ⟨?_, by decide, by decide⟩
  have hdata : (("" : String) ++ (l1 ++ "\n" ++ l2 ++ "\n")).data =
      l1.data ++ '\n' :: (l2.data ++ '\n' :: []) := by
    simp [data_append, newline_data, empty_append]
  show ((extractLinesAux [] (("" : String) ++ (l1 ++ "\n" ++ l2 ++ "\n")).data).1.map
      String.mk).foldl parseCommand ctl = _
  rw [hdata, extractLinesAux_newline _ _ _ h1, extractLinesAux_newline _ _ _ h2]
  simp [extractLinesAux, mk_data_eq]

/-- C6 witness: the ordering part applied to PRESS X and RELEASE X. -/
theorem c6_update_processes_in_order_witness :
    (updateInput ⟨initControlState, ""⟩ ("PRESS X" ++ "\n" ++ "RELEASE X" ++ "\n")).ctl =
      parseCommand (parseCommand initControlState "PRESS X") "RELEASE X" :=
  (c6_update_processes_in_order initControlState "PRESS X" "RELEASE X"
    (by decide) (by decide)).1

/-- C7: in the byte-stream build, bytes after the last newline stay in
the buffer across polls: PRE alone has no effect and is retained, and the
following SS A with a newline completes exactly the single command
PRESS A, whose effect (button A at 1) appears only after the second poll. -/
theorem c7_split_command_reassembled (ctl : ControlState) :
    updateInput ⟨ctl, ""⟩ "PRE" = ⟨ctl, "PRE"⟩ ∧
    updateInput (updateInput ⟨ctl, ""⟩ "PRE") "SS A\n" =
      ⟨parseCommand ctl "PRESS A", ""⟩ ∧
    buttonValue (updateInput (updateInput ⟨initControlState, ""⟩ "PRE") "SS A\n").ctl
      "A" = some 1 ∧
    buttonValue (updateInput ⟨initControlState, ""⟩ "PRE").ctl "A" =
      some defaultInputValue :=
  ⟨rfl, rfl, by decide, by decide⟩

/-- C8: a malformed line (token count outside 2..4, unrecognized first
token, or unknown button or axis name) leaves the state unchanged, and
any following line is processed exactly as it would have been without
the malformed line. -/
theorem c8_malformed_line_ignored (st : ControlState) (tokens : List String)
    (h : tokens.length < 2 ∨ tokens.length > 4 ∨
      tokens.headD "" ∉ (["PRESS", "RELEASE", "SET"] : List String) ∨
      ((tokens.headD "" = "PRESS" ∨ tokens.headD "" = "RELEASE") ∧
        lookupValue st.buttons (tokens.getD 1 "") = none) ∨
      (tokens.headD "" = "SET" ∧ tokens.length = 3 ∧
        lookupValue st.axes (tokens.getD 1 "" ++ " +") = none ∧
        lookupValue st.axes (tokens.getD 1 "" ++ " -") = none) ∨
      (tokens.headD "" = "SET" ∧ tokens.length = 4 ∧
        lookupValue st.axes (tokens.getD 1 "" ++ " X" ++ " +") = none ∧
        lookupValue st.axes (tokens.getD 1 "" ++ " X" ++ " -") = none ∧
        lookupValue st.axes (tokens.getD 1 "" ++ " Y" ++ " +") = none ∧
        lookupValue st.axes (tokens.getD 1 "" ++ " Y" ++ " -") = none)) :
    applyTokens st tokens = st ∧
    ∀ next : String,
      parseCommand (applyTokens st tokens) next = parseCommand st next := by
  suffices main : applyTokens st tokens = st by
    exact ⟨main, fun next => by rw [main]⟩
  by_cases hlen : tokens.length < 2 ∨ tokens.length > 4
  · unfold applyTokens
    rw [if_pos hlen]
  · unfold applyTokens
    rw [if_neg hlen]
    rcases h with h | h | h | h | h | h
    · exact absurd (Or.inl h) hlen
    · exact absurd (Or.inr h) hlen
    · have hp : ¬(tokens.headD "" = "PRESS" ∨ tokens.headD "" = "RELEASE") := by
        intro hx
        rcases hx with hx | hx <;> exact h (by rw [hx]; decide)
      have hs : ¬(tokens.headD "" = "SET") := by
        intro hx
        exact h (by rw [hx]; decide)
      rw [if_neg hp, if_neg hs]
    · obtain ⟨hv, hb⟩ := h
      rw [if_pos hv, updateEntry_of_none _ _ _ hb]
    · obtain ⟨hv, h3, hpl, hmi⟩ := h
      rw [hv, if_neg (by decide), if_pos rfl, if_pos h3]
      exact setAxis_of_unknown st _ _ hpl hmi
    · obtain ⟨hv, h4, hxp, hxm, hyp, hym⟩ := h
      rw [hv, if_neg (by decide), if_pos rfl, if_neg (by omega), if_pos h4,
        setAxis_of_unknown st _ _ hxp hxm]
      exact setAxis_of_unknown st _ _ hyp hym

/-- C8 witness: the unknown verb JUMP A, the unknown button PRESS Q and a
five-token line are all ignored, and PRESS A still works afterwards. -/
theorem c8_malformed_line_ignored_witness :
    applyTokens initControlState ["JUMP", "A"] = initControlState ∧
    parseCommand (applyTokens initControlState ["JUMP", "A"]) "PRESS A" =
      parseCommand initControlState "PRESS A" ∧
    applyTokens initControlState ["PRESS", "Q"] = initControlState ∧
    applyTokens initControlState ["SET", "MAIN", "1.0", "2.0", "3.0"] =
      initControlState :=
  ⟨(c8_malformed_line_ignored initControlState ["JUMP", "A"] (by decide)).1,
   (c8_malformed_line_ignored initControlState ["JUMP", "A"] (by decide)).2 "PRESS A",
   (c8_malformed_line_ignored initControlState ["PRESS", "Q"] (by decide)).1,
   (c8_malformed_line_ignored initControlState ["SET", "MAIN", "1.0", "2.0", "3.0"]
     (by decide)).1⟩

/-- C9: in the message-oriented build, one update call consumes at most
one message, executes every newline-terminated command inside it in
order, and drops the bytes after the last newline: a later call sees
only its own message. -/
theorem c9_zmq_update (st : ControlState) (l1 l2 trailer : String)
    (h1 : '\n' ∉ l1.data) (h2 : '\n' ∉ l2.data) (h3 : '\n' ∉ trailer.data) :
    updateInputZmq st none = st ∧
    updateInputZmq st (some (l1 ++ "\n" ++ l2 ++ "\n" ++ trailer)) =
      parseCommand (parseCommand st l1) l2 ∧
    updateInputZmq (updateInputZmq st (some (l1 ++ "\n" ++ trailer)))
      (some (l2 ++ "\n")) = parseCommand (parseCommand st l1) l2 := by
  refine ⟨rfl, ?_, ?_⟩
  · have hdata : (l1 ++ "\n" ++ l2 ++ "\n" ++ trailer).data =
        l1.data ++ '\n' :: (l2.data ++ '\n' :: trailer.data) := by
      simp [data_append, newline_data]
    show ((extractLinesAux [] (l1 ++ "\n" ++ l2 ++ "\n" ++ trailer).data).1.map
        String.mk).foldl parseCommand st = _
    rw [hdata, extractLinesAux_newline _ _ _ h1, extractLinesAux_newline _ _ _ h2,
      extractLinesAux_no_newline _ _ h3]
    simp [mk_data_eq]
  · have e1 : updateInputZmq st (some (l1 ++ "\n" ++ trailer)) = parseCommand st l1 := by
      have hdata : (l1 ++ "\n" ++ trailer).data = l1.data ++ '\n' :: trailer.data := by
        simp [data_append, newline_data]
      show ((extractLinesAux [] (l1 ++ "\n" ++ trailer).data).1.map String.mk).foldl
          parseCommand st = _
      rw [hdata, extractLinesAux_newline _ _ _ h1, extractLinesAux_no_newline _ _ h3]
      simp [mk_data_eq]
    rw [e1]
    have hdata2 : (l2 ++ "\n").data = l2.data ++ '\n' :: [] := by
      simp [data_append, newline_data]
    show ((extractLinesAux [] (l2 ++ "\n").data).1.map String.mk).foldl
        parseCommand (parseCommand st l1) = _
    rw [hdata2, extractLinesAux_newline _ _ _ h2]
    simp [extractLinesAux, mk_data_eq]

/-- C9 witness: a message holding PRESS A, RELEASE A and a trailing
fragment acts as the two commands in order, and the fragment is not seen
by a later call. -/
theorem c9_zmq_update_witness :
    updateInputZmq initControlState
        (some ("PRESS A" ++ "\n" ++ "RELEASE A" ++ "\n" ++ "JU")) =
      parseCommand (parseCommand initControlState "PRESS A") "RELEASE A" ∧
    updateInputZmq (updateInputZmq initControlState (some ("PRESS A" ++ "\n" ++ "JU")))
        (some ("RELEASE A" ++ "\n")) =
      parseCommand (parseCommand initControlState "PRESS A") "RELEASE A" :=
  ⟨(c9_zmq_update initControlState "PRESS A" "RELEASE A" "JU"
      (by decide) (by decide) (by decide)).2.1,
   (c9_zmq_update initControlState "PRESS A" "RELEASE A" "JU"
      (by decide) (by decide) (by decide)).2.2⟩

/-- C10: at construction, every button holds the default input value,
both halves of the shoulder axes hold 0, and both halves of every stick
axis component hold 0.5, so both stick halves are simultaneously
non-zero before any SET. -/
theorem c10_initial_control_values :
    (∀ tok ∈ buttonTokens, buttonValue initControlState tok = some defaultInputValue) ∧
    axisValue initControlState "L +" = some 0 ∧
    axisValue initControlState "L -" = some 0 ∧
    axisValue initControlState "R +" = some 0 ∧
    axisValue initControlState "R -" = some 0 ∧
    axisValue initControlState "MAIN X +" = some half ∧
    axisValue initControlState "MAIN X -" = some half ∧
    axisValue initControlState "MAIN Y +" = some half ∧
    axisValue initControlState "MAIN Y -" = some half ∧
    axisValue initControlState "C X +" = some half ∧
    axisValue initControlState "C X -" = some half ∧
    axisValue initControlState "C Y +" = some half ∧
    axisValue initControlState "C Y -" = some half ∧
    half = 1/2 ∧ half ≠ 0 :=
  ⟨by decide, by decide, by decide, by decide, by decide, by decide, by decide,
   by decide, by decide, by decide, by decide, by decide, by decide, half_eq,
   by decide⟩

/-- C10 witness: the per-button part applied to button A. -/
theorem c10_initial_control_values_witness :
    buttonValue initControlState "A" = some defaultInputValue :=
  c10_initial_control_values.1 "A" (by decide)

end Pipes
